import Mathlib

/-
  Verification development for the dprl repository's VPG core:
  the trajectory collector, rewards-to-go calculator, advantage estimator,
  configuration validation, and the policy-gradient update step of the
  example training loops.

  Real numbers of the source (Python floats) are modelled by ℚ; every
  discrepancy established below is structural and independent of rounding.
-/

namespace DPRL

/-! ## The rewards-to-go calculator (src/dprl/algorithms/vpg/vpg_utils.py, calculate_rewards_to_go)

The Python body is:

    rewards_to_go = []
    running_add = 0
    for reward in reversed(rewards):
        running_add = reward * 0.99 + running_add
        rewards_to_go.append(running_add)
    return rewards_to_go[::-1]
-/

/-- Embeds the loop of calculate_rewards_to_go: walks the reversed reward list
carrying the accumulator, appending `reward * 0.99 + running_add` at each step,
exactly as the source writes it (the discount multiplies the reward, not the
accumulator). -/
def rtgLoop : List ℚ → ℚ → List ℚ
  | [], _ => []
  | r :: rest, acc =>
    let acc2 := r * (99 / 100) + acc
    acc2 :: rtgLoop rest acc2

/-- Embeds calculate_rewards_to_go from vpg_utils.py lines 74-88: loop over
the reversed rewards, then reverse the accumulated list. -/
def calculate_rewards_to_go (rewards : List ℚ) : List ℚ :=
  (rtgLoop rewards.reverse 0).reverse

/-! ## The advantage estimator (src/dprl/algorithms/vpg/vpg.py, calculate_advantages)

The selector is the Python enum AdvantageExpression.  The Python function
dispatches on it with a `match` statement that has no default case, so a
value that is none of the three members falls through and the function
returns Python's None.  We model the dynamically typed selector argument as
`Option AdvantageExpression`: `some` for a member, `none` for any other object.
-/

/-- Embeds the AdvantageExpression enum of vpg.py lines 9-12. -/
inductive AdvantageExpression
  | TOTAL_REWARD
  | REWARD_TO_GO
  | REWARD_TO_GO_BASELINED
  deriving DecidableEq, Repr

/-- Possible outcomes of a call to calculate_advantages in Python:
a list result, the value None (match fell through), or a raised
numpy broadcast ValueError. -/
inductive AdvResult
  | ok (l : List ℚ)
  | pyNone
  | valueError
  deriving DecidableEq, Repr

/-- Embeds `list(np.array(a) - np.array(b))` for one-dimensional arrays,
with numpy's broadcasting rule: elementwise when the lengths agree, a
length-1 operand is broadcast against the other, and any other length
mismatch raises ValueError. -/
def npSub (a b : List ℚ) : AdvResult :=
  if a.length = b.length then .ok (List.zipWith (fun x y => x - y) a b)
  else
    match a, b with
    | [x], _ => .ok (b.map (fun y => x - y))
    | _, [y] => .ok (a.map (fun x => x - y))
    | _, _ => .valueError

/-- Embeds calculate_advantages from vpg.py lines 15-39: match on the
selector; TOTAL_REWARD returns rewards, REWARD_TO_GO returns rewards_to_go,
REWARD_TO_GO_BASELINED returns the numpy difference of rewards_to_go and
values; a non-member selector falls through the match and the function
returns None. -/
def calculate_advantages (rewards rewards_to_go values : List ℚ)
    (advantage_expression : Option AdvantageExpression) : AdvResult :=
  match advantage_expression with
  | some .TOTAL_REWARD => .ok rewards
  | some .REWARD_TO_GO => .ok rewards_to_go
  | some .REWARD_TO_GO_BASELINED => npSub rewards_to_go values
  | none => .pyNone

/-! ## Configuration validation (src/dprl/algorithms/vpg/config.py, VPGConfig.advantage_expression)

The field is declared as

    advantage_expression: Literal["total_reward", "reward_to_go", "baselined"]

with a mode="before" field validator that maps an enum member to str(v.value)
and any other input to str(v); pydantic then accepts the field iff the
resulting string is one of the three literal strings, raising a
ValidationError at construction time otherwise.  For a string input the
validator is the identity (Python str(v) == v).
-/

/-- The rejection raised by pydantic at configuration-construction time when
a field value fails validation (the spec's InvalidArgument condition). -/
inductive ConfigError
  | invalidArgument
  deriving DecidableEq, Repr

/-- Embeds the validation of a string supplied for VPGConfig.advantage_expression
(config.py lines 39-53): after the before-validator (identity on strings), the
value must equal one of the three strings of the Literal annotation. -/
def validate_advantage_expression (v : String) : Except ConfigError String :=
  if v = "total_reward" ∨ v = "reward_to_go" ∨ v = "baselined" then .ok v
  else .error .invalidArgument

/-! ## The trajectory collector (src/dprl/algorithms/vpg/vpg_utils.py, collect_trajectory)

The Python loop is:

    observation, _ = env.reset()
    rewards = []
    log_values = []
    while True:
        ...sample action and its log-probability from the policy at observation...
        observation, reward, done, _, _ = env.step(action)
        log_values.append(log_probability_action)
        rewards.append(float(reward))
        if done:
            break
    return VPGTrajectory(rewards=rewards, log_values=log_values)

The environment is modelled as a step function on an abstract state type
(the state doubles as the observation the policy sees); the stochastic
policy forward pass and sampling are modelled by an arbitrary function
from the observation to the sampled action and its log-probability, so
every theorem below holds for every sampling outcome.  The unbounded
`while True` is modelled with fuel: `none` means the loop has not exited
within the given number of iterations.
-/

/-- The five-tuple returned by a gymnasium env.step call, without the info
dictionary the source discards: next observation, reward, terminated flag
(the third element, bound to `done` in the source), truncated flag (the
fourth element, discarded by the source). -/
structure StepResult (S : Type) where
  observation : S
  reward : ℚ
  terminated : Bool
  truncated : Bool

/-- Embeds the while-loop of collect_trajectory: at each iteration the policy
is evaluated at the current observation, the environment is stepped with the
sampled action, the log-probability and reward are appended, and the loop
exits iff the third element of the step result (terminated) is true.  Returns
the (rewards, log_values) pair built by the loop, or `none` when the loop has
not exited within `fuel` iterations. -/
def collect_steps {S : Type} (step : S → Nat → StepResult S) (policy : S → Nat × ℚ) :
    S → Nat → Option (List ℚ × List ℚ)
  | _, 0 => none
  | s, fuel + 1 =>
    let a := policy s
    let res := step s a.1
    if res.terminated then some ([res.reward], [a.2])
    else
      match collect_steps step policy res.observation fuel with
      | none => none
      | some (rs, ls) => some (res.reward :: rs, a.2 :: ls)

/-- Embeds the namedtuple class VPGTrajectory of vpg.py line 6, whose declared
fields are rewards, log_values and values. -/
structure VPGTrajectory where
  rewards : List ℚ
  log_values : List ℚ
  values : List ℚ
  deriving DecidableEq, Repr

/-- The exception raised by a Python call whose required arguments are not all
supplied. -/
inductive PyError
  | typeError
  deriving DecidableEq, Repr

/-- Embeds a keyword-argument construction of the VPGTrajectory namedtuple:
it succeeds only when every one of the three declared fields (none of which
has a default) is supplied, and raises TypeError otherwise. -/
def mkVPGTrajectory (kwargs : List (String × List ℚ)) : Except PyError VPGTrajectory :=
  match kwargs.lookup "rewards", kwargs.lookup "log_values", kwargs.lookup "values" with
  | some r, some lv, some v => .ok ⟨r, lv, v⟩
  | _, _, _ => .error .typeError

/-- Embeds collect_trajectory of vpg_utils.py lines 34-71: run the collection
loop from the reset observation, then build the VPGTrajectory result with the
keyword arguments the source passes at line 71 — rewards and log_values only,
although the namedtuple declares a third required field values. -/
def collect_trajectory {S : Type} (step : S → Nat → StepResult S) (policy : S → Nat × ℚ)
    (s0 : S) (fuel : Nat) : Option (Except PyError VPGTrajectory) :=
  (collect_steps step policy s0 fuel).map
    (fun p => mkVPGTrajectory [("rewards", p.1), ("log_values", p.2)])

/-! ## The policy-gradient update step (examples/vpg_cartpole.py lines 92-103,
examples/vpg_flappy_bird.py lines 121-131)

Both examples compute

    advantages = torch.as_tensor(advantages)          # plain floats: no grad
    log_values = torch.stack(trajectory.log_values)   # graph-attached
    loss = -torch.mean(log_values * advantages)

Autograd is modelled with dual numbers: a differentiable scalar carries its
value and its derivative along one fixed direction in parameter space. The
log-probabilities are arbitrary duals (attached to the graph); the advantage
list enters through torch.as_tensor applied to plain floats, which yields a
tensor with no gradient history, i.e. duals with derivative zero. -/

/-- A differentiable scalar: value and derivative along a fixed direction in
the model's parameter space. -/
structure Dual where
  val : ℚ
  grad : ℚ
  deriving DecidableEq, Repr

/-- Product of two differentiable scalars (autograd product rule). -/
def Dual.mul (a b : Dual) : Dual :=
  ⟨a.val * b.val, a.grad * b.val + a.val * b.grad⟩

/-- Negation of a differentiable scalar. -/
def Dual.negate (a : Dual) : Dual :=
  ⟨-a.val, -a.grad⟩

/-- Sum of a list of differentiable scalars. -/
def dualSum (l : List Dual) : Dual :=
  l.foldr (fun a b => ⟨a.val + b.val, a.grad + b.grad⟩) ⟨0, 0⟩

/-- torch.mean over a one-dimensional tensor of differentiable scalars. -/
def dualMean (l : List Dual) : Dual :=
  ⟨(dualSum l).val / l.length, (dualSum l).grad / l.length⟩

/-- Embeds torch.as_tensor applied to a list of plain Python floats: the
resulting tensor holds the same values and carries no gradient history. -/
def asTensorConst (xs : List ℚ) : List Dual :=
  xs.map (fun x => ⟨x, 0⟩)

/-- Embeds the loss of the examples' update step:
loss = -torch.mean(log_values * torch.as_tensor(advantages)). -/
def vpgLoss (log_values : List Dual) (advantages : List ℚ) : Dual :=
  Dual.negate (dualMean (List.zipWith Dual.mul log_values (asTensorConst advantages)))

/-! ## Helper lemmas -/

/-- npSub raises the broadcast ValueError exactly when the lengths differ and
neither operand has length one. -/
lemma npSub_eq_valueError_iff (a b : List ℚ) :
    npSub a b = .valueError ↔ (a.length ≠ b.length ∧ a.length ≠ 1 ∧ b.length ≠ 1) := by
  unfold npSub
  split_ifs with h
  · simp [h]
  · cases a with
    | nil =>
      cases b with
      | nil => simp at h
      | cons y ys =>
        cases ys with
        | nil => simp
        | cons y2 ys2 => simp [h]
    | cons x xs =>
      cases xs with
      | nil => simp
      | cons x2 xs2 =>
        cases b with
        | nil => simp [h]
        | cons y ys =>
          cases ys with
          | nil => simp
          | cons y2 ys2 =>
            simp at h
            simp [h]

/-- Subtracting a single-element values array broadcasts it over the whole
rewards-to-go array. -/
lemma npSub_singleton (a : List ℚ) (v : ℚ) :
    npSub a [v] = .ok (a.map (fun x => x - v)) := by
  cases a with
  | nil => rfl
  | cons x xs =>
    cases xs with
    | nil => rfl
    | cons x2 xs2 => rfl

/-- Unfolding lemma: dualSum over a cons. -/
lemma dualSum_cons (x : Dual) (l : List Dual) :
    dualSum (x :: l) = ⟨x.val + (dualSum l).val, x.grad + (dualSum l).grad⟩ := rfl

/-- Unfolding lemma: asTensorConst over a cons. -/
lemma asTensorConst_cons (a : ℚ) (as : List ℚ) :
    asTensorConst (a :: as) = ⟨a, 0⟩ :: asTensorConst as := rfl

/-- dualSum over the product of graph-attached scalars with constants
splits into the sum of value products and the sum of gradient products. -/
lemma dualSum_mul_const (lv : List Dual) (adv : List ℚ) :
    dualSum (List.zipWith Dual.mul lv (asTensorConst adv)) =
      ⟨(List.zipWith (fun l a => l.val * a) lv adv).sum,
       (List.zipWith (fun l a => l.grad * a) lv adv).sum⟩ := by
  induction lv generalizing adv with
  | nil => simp [dualSum, asTensorConst]
  | cons x xs ih =>
    cases adv with
    | nil => simp [dualSum, asTensorConst]
    | cons a as =>
      rw [asTensorConst_cons, List.zipWith_cons_cons, dualSum_cons, ih as]
      simp [Dual.mul]

/-! ## Claim theorems -/

/-- C1: the claim says collect_trajectory returns a Trajectory with
len(rewards) == len(log_values) == K for a deterministic environment that
terminates after exactly K steps.  The collection loop does build two
length-K lists (second conjunct, for a stub environment with K = 1), but the
function never returns them: VPGTrajectory is a namedtuple declaring three
required fields (rewards, log_values, values) and vpg_utils.py line 71
constructs it with only rewards and log_values, so every call raises
TypeError (first conjunct). -/
theorem c1_collect_trajectory_typeError :
    collect_trajectory (fun (_ : Unit) (_ : Nat) => StepResult.mk () 1 true false)
        (fun _ => (0, 0)) () 5 = some (.error .typeError) ∧
    collect_steps (fun (_ : Unit) (_ : Nat) => StepResult.mk () 1 true false)
        (fun _ => (0, 0)) () 5 = some ([1], [0]) :=
  ⟨rfl, rfl⟩

/-- C2: the claim says calculate_rewards_to_go satisfies G[T-1] = r[T-1] and
G[t] = r[t] + 0.99 * G[t+1].  The source instead computes
running_add = reward * 0.99 + running_add, discounting each reward exactly
once and never compounding, so on [1, 1, 1] it returns
[2.97, 1.98, 0.99] rather than the [2.9701, 1.99, 1.0] the recurrence
requires; in particular the last entry is 0.99 * r[T-1], not r[T-1]. -/
theorem c2_rewards_to_go_recurrence_violated :
    calculate_rewards_to_go [1, 1, 1] = [297 / 100, 99 / 50, 99 / 100] ∧
    calculate_rewards_to_go [1, 1, 1] ≠ [29701 / 10000, 199 / 100, 1] := by
  have h1 : calculate_rewards_to_go [1, 1, 1] = [297 / 100, 99 / 50, 99 / 100] := by
    norm_num [calculate_rewards_to_go, rtgLoop]
  refine ⟨h1, ?_⟩
  rw [h1]
  simp only [ne_eq, List.cons.injEq, not_and]
  intro hc
  norm_num at hc

/-- C3 counterexample: the claim says the configuration accepts exactly
total_reward, reward_to_go and reward_to_go_baselined.  The Literal
annotation of config.py line 39-41 instead names baselined as its third
value: reward_to_go_baselined is rejected and baselined is accepted. -/
theorem c3_third_identifier_counterexample :
    validate_advantage_expression "reward_to_go_baselined" = .error .invalidArgument ∧
    validate_advantage_expression "baselined" = .ok "baselined" :=
  ⟨rfl, rfl⟩

/-- C3 amended: the configuration's advantage-expression selector accepts
exactly the three string identifiers total_reward, reward_to_go and
baselined, and rejects every other string (including reward_to_go_baselined)
at configuration-construction time. -/
theorem c3_accepted_strings (s : String) :
    validate_advantage_expression s = .ok s ↔
      (s = "total_reward" ∨ s = "reward_to_go" ∨ s = "baselined") := by
  unfold validate_advantage_expression
  split_ifs with h
  · simp [h]
  · simp [h]

/-- C4 counterexample: the claim says calling calculate_advantages with a
selector that is none of the three enum members fails with InvalidArgument.
The match statement of vpg.py lines 33-39 has no default case, so such a
call falls through and the function silently returns Python's None. -/
theorem c4_unrecognized_mode_counterexample :
    calculate_advantages [1] [2] [3] none = .pyNone :=
  rfl

/-- C4 amended: for every input, calling calculate_advantages with a mode
selector that is not one of the three recognized advantage-expression
values silently returns Python's None; no InvalidArgument condition is
raised. -/
theorem c4_unrecognized_mode_returns_none (rewards rewards_to_go values : List ℚ) :
    calculate_advantages rewards rewards_to_go values none = .pyNone :=
  rfl

/-- C5 counterexample: the claim says every unequal-length pair of
rewards_to_go and values fails with ShapeMismatch in baselined mode.  With
rewards_to_go of length 2 and values of length 1 the numpy subtraction
broadcasts instead and returns a result. -/
theorem c5_broadcast_counterexample :
    ([1, 2] : List ℚ).length ≠ ([3] : List ℚ).length ∧
    calculate_advantages [0, 0] [1, 2] [3] (some .REWARD_TO_GO_BASELINED) =
      .ok [1 - 3, 2 - 3] := by
  exact ⟨by decide, rfl⟩

/-- C5 amended: in REWARD_TO_GO_BASELINED mode, calculate_advantages fails
with the ShapeMismatch condition (a numpy broadcast ValueError) for every
pair of rewards_to_go and values sequences of unequal length in which
neither sequence has length 1 (a length-1 operand is instead broadcast);
the inputs are never silently truncated or padded. -/
theorem c5_unequal_lengths_valueError (rewards rewards_to_go values : List ℚ)
    (h1 : rewards_to_go.length ≠ values.length)
    (h2 : rewards_to_go.length ≠ 1) (h3 : values.length ≠ 1) :
    calculate_advantages rewards rewards_to_go values (some .REWARD_TO_GO_BASELINED) =
      .valueError := by
  show npSub rewards_to_go values = .valueError
  exact (npSub_eq_valueError_iff rewards_to_go values).mpr ⟨h1, h2, h3⟩

/-- C5 witness: instantiation at rewards_to_go = [1, 2] and
values = [3, 4, 5]. -/
theorem c5_unequal_lengths_valueError_witness :
    ([1, 2] : List ℚ).length ≠ ([3, 4, 5] : List ℚ).length ∧
    ([1, 2] : List ℚ).length ≠ 1 ∧ ([3, 4, 5] : List ℚ).length ≠ 1 ∧
    calculate_advantages [] [1, 2] [3, 4, 5] (some .REWARD_TO_GO_BASELINED) =
      .valueError :=
  ⟨by decide, by decide, by decide,
    c5_unequal_lengths_valueError [] [1, 2] [3, 4, 5] (by decide) (by decide) (by decide)⟩

/-- C6: in TOTAL_REWARD mode calculate_advantages returns the rewards
sequence unchanged; in REWARD_TO_GO mode it returns the rewards_to_go
sequence unchanged regardless of values; in REWARD_TO_GO_BASELINED mode
with equal-length sequences it returns the elementwise difference
rewards_to_go[t] - values[t]. -/
theorem c6_advantage_modes (rewards rewards_to_go values : List ℚ) :
    calculate_advantages rewards rewards_to_go values (some .TOTAL_REWARD) = .ok rewards ∧
    calculate_advantages rewards rewards_to_go values (some .REWARD_TO_GO) =
      .ok rewards_to_go ∧
    (rewards_to_go.length = values.length →
      calculate_advantages rewards rewards_to_go values (some .REWARD_TO_GO_BASELINED) =
        .ok (List.zipWith (fun x y => x - y) rewards_to_go values)) := by
  refine ⟨rfl, rfl, fun h => ?_⟩
  show npSub rewards_to_go values = _
  unfold npSub
  rw [if_pos h]

/-- C6 witness: instantiation at rewards = [5], rewards_to_go = [3],
values = [1]. -/
theorem c6_advantage_modes_witness :
    calculate_advantages [5] [3] [1] (some .TOTAL_REWARD) = .ok [5] ∧
    ([3] : List ℚ).length = ([1] : List ℚ).length ∧
    calculate_advantages [5] [3] [1] (some .REWARD_TO_GO_BASELINED) =
      .ok (List.zipWith (fun x y => x - y) [3] [1]) :=
  ⟨(c6_advantage_modes [5] [3] [1]).1, rfl, (c6_advantage_modes [5] [3] [1]).2.2 rfl⟩

/-- C9 counterexample: the claim says a length mismatch in baselined mode
produces an error only when both sequences have length greater than 1.
An empty rewards_to_go against a length-2 values is a length mismatch
(first conjunct) that does error (second conjunct: numpy rejects shapes
(0,) and (2,), since the lengths differ and neither is 1) although it is
not the case that both lengths exceed 1 (third conjunct). -/
theorem c9_zero_length_counterexample :
    ([] : List ℚ).length ≠ ([1, 2] : List ℚ).length ∧
    calculate_advantages [] [] [1, 2] (some .REWARD_TO_GO_BASELINED) = .valueError ∧
    ¬ (([] : List ℚ).length > 1 ∧ ([1, 2] : List ℚ).length > 1) :=
  ⟨by decide, rfl, by decide⟩

/-- C9 amended: in REWARD_TO_GO_BASELINED mode a length-1 values sequence is
silently broadcast — the single value is subtracted from every
rewards_to_go element, for every rewards_to_go length including 0 and 1
(first conjunct) — and the numpy subtraction of vpg.py line 39 errors
exactly when the two lengths differ and neither sequence has length 1
(second conjunct, an iff), so a mismatch against an empty sequence also
errors, not only when both lengths exceed 1. -/
theorem c9_broadcast_and_error_characterization :
    (∀ (rewards rewards_to_go : List ℚ) (v : ℚ),
      calculate_advantages rewards rewards_to_go [v] (some .REWARD_TO_GO_BASELINED) =
        .ok (rewards_to_go.map (fun x => x - v))) ∧
    (∀ (rewards rewards_to_go values : List ℚ),
      calculate_advantages rewards rewards_to_go values (some .REWARD_TO_GO_BASELINED) =
        .valueError ↔
        (rewards_to_go.length ≠ values.length ∧ rewards_to_go.length ≠ 1 ∧
          values.length ≠ 1)) := by
  constructor
  · intro rewards rewards_to_go v
    show npSub rewards_to_go [v] = _
    exact npSub_singleton rewards_to_go v
  · intro rewards rewards_to_go values
    show npSub rewards_to_go values = .valueError ↔ _
    exact npSub_eq_valueError_iff rewards_to_go values

/-- C7: for every equal-length pair of log-probability and advantage
sequences, the update-step loss equals the negative mean over all t of
log_probabilities[t] * advantages[t] (first conjunct, on values), and its
gradient combines only the log-probability gradients with the advantage
values — the advantages enter through torch.as_tensor on plain floats, so
they are constants whose own gradients (identically zero) never reach the
loss (second conjunct). -/
theorem c7_loss_value_and_gradient (log_values : List Dual) (advantages : List ℚ)
    (h : log_values.length = advantages.length) :
    (vpgLoss log_values advantages).val =
      -((List.zipWith (fun l a => l.val * a) log_values advantages).sum /
        log_values.length) ∧
    (vpgLoss log_values advantages).grad =
      -((List.zipWith (fun l a => l.grad * a) log_values advantages).sum /
        log_values.length) := by
  unfold vpgLoss dualMean Dual.negate
  rw [dualSum_mul_const]
  have hlen : (List.zipWith Dual.mul log_values (asTensorConst advantages)).length =
      log_values.length := by
    simp [asTensorConst, h]
  rw [hlen]
  exact ⟨rfl, rfl⟩

/-- C7 witness: instantiation at one graph-attached log-probability with
value 2 and gradient 3, and the single advantage 5. -/
theorem c7_loss_value_and_gradient_witness :
    ([⟨2, 3⟩] : List Dual).length = ([5] : List ℚ).length ∧
    (vpgLoss [⟨2, 3⟩] [5]).val =
      -((List.zipWith (fun l a => l.val * a) ([⟨2, 3⟩] : List Dual) [5]).sum /
        ([⟨2, 3⟩] : List Dual).length) ∧
    (vpgLoss [⟨2, 3⟩] [5]).grad =
      -((List.zipWith (fun l a => l.grad * a) ([⟨2, 3⟩] : List Dual) [5]).sum /
        ([⟨2, 3⟩] : List Dual).length) :=
  ⟨rfl, c7_loss_value_and_gradient [⟨2, 3⟩] [5] rfl⟩

/-- C8: calculate_rewards_to_go applied to the empty reward sequence
returns the empty sequence and does not fail for T = 0. -/
theorem c8_empty_rewards :
    calculate_rewards_to_go [] = [] :=
  rfl

/-- C10: the collection loop exits only on the terminated flag, the third
element of the step return value.  First conjunct: for every environment
whose terminated flag is always false, the loop never exits (none for every
fuel bound), with the truncated flag left completely unconstrained — in
particular it may be true at every step, as in the witness.  Second
conjunct: whenever the step taken from the current observation returns
terminated = true, the loop exits immediately with that step recorded. -/
theorem c10_loop_exit_on_terminated_only {S : Type}
    (step : S → Nat → StepResult S) (policy : S → Nat × ℚ) :
    ((∀ s a, (step s a).terminated = false) →
      ∀ s fuel, collect_steps step policy s fuel = none) ∧
    (∀ s fuel, (step s (policy s).1).terminated = true →
      collect_steps step policy s (fuel + 1) =
        some ([(step s (policy s).1).reward], [(policy s).2])) := by
  constructor
  · intro h s fuel
    induction fuel generalizing s with
    | zero => rfl
    | succ n ih =>
      simp only [collect_steps, h, if_neg]
      rw [ih]
      simp
  · intro s fuel ht
    simp [collect_steps, ht]

/-- C10 witness: a stub environment that never terminates but is truncated
at every step loops forever (none at fuel 3), and a stub environment that
terminates on its first step exits with that single step recorded. -/
theorem c10_loop_exit_witness :
    collect_steps (fun (_ : Unit) (_ : Nat) => StepResult.mk () 0 false true)
      (fun _ => (0, 0)) () 3 = none ∧
    collect_steps (fun (_ : Unit) (_ : Nat) => StepResult.mk () 5 true false)
      (fun _ => (0, 7)) () 1 = some ([5], [7]) :=
  ⟨(c10_loop_exit_on_terminated_only _ _).1 (fun _ _ => rfl) () 3,
    (c10_loop_exit_on_terminated_only _ _).2 () 0 rfl⟩

end DPRL
